import Mathlib

/-!
# Verification of the force-directed graph core (`graph.tsx`)

A shallow embedding of the data model and the pure logic of the graph
visualization component: link rest distances, node/link filtering,
selection and connected-node derivation, parallel-edge curve routing,
drag pinning, color assignment, and the opened-files tab list.

JavaScript values are modelled as follows: `undefined` becomes `Option`,
numbers that are ids become `Nat`, geometric coordinates become `ℚ`,
and JS objects keyed by strings become functions `String → Option Bool`.
-/

namespace Wt

/-- A graph node (`Node` in `graph.tsx`).  `category = ""` models a missing
or empty category string (both are falsy in JS).  The position fields
`x, y` and pin fields `fx, fy` are the mutable simulation fields d3 adds;
they start out absent. -/
structure Node where
  id : Nat
  name : String
  category : String
  path : Option String := none
  color : Option String := none
  x : Option ℚ := none
  y : Option ℚ := none
  fx : Option ℚ := none
  fy : Option ℚ := none
deriving DecidableEq, Repr

/-- A link endpoint: `number | Node | undefined` in the TS source. -/
inductive Endpoint where
  | ref (id : Nat)
  | node (n : Node)
  | undef
deriving DecidableEq, Repr

/-- A graph link (`Link` in `graph.tsx`). -/
structure Link where
  source : Endpoint
  target : Endpoint
  relation : String := ""
  strength : Option ℚ := none
deriving DecidableEq, Repr

/-- The `GraphData` record of `graph.tsx`. -/
structure GraphData where
  nodes : List Node
  links : List Link
deriving DecidableEq, Repr

/-- The helper `getNodeId`: `typeof node === "object" ? node.id : node`.  Applied to
`undefined` it yields `undefined` (modelled `none`). -/
def getNodeId : Endpoint → Option Nat
  | .ref i => some i
  | .node n => some n.id
  | .undef => none

/-- The helper `getNodeById`: for a numeric endpoint, look the node up in `data`;
for an object endpoint return it; for `undefined` return `undefined`. -/
def getNodeById (data : List Node) : Endpoint → Option Node
  | .ref i => data.find? (fun n => n.id = i)
  | .node n => some n
  | .undef => none

/-- JS `hay.includes(needle)` (substring containment). -/
def jsIncludes (hay needle : String) : Bool :=
  decide (needle.toList <:+: hay.toList)

/-- JS `s.toLowerCase()` modelled character by character. -/
def jsToLower (s : String) : String :=
  ⟨s.data.map Char.toLower⟩

/-- The category of an optionally-resolved node, `node?.category` in TS. -/
def optCategory (o : Option Node) : Option String :=
  o.map Node.category

/-- The link-force rest distance of `graph.tsx` (the `.distance` callback of
the `forceLink`): resolve both endpoints against the full node list; 180 if
either resolved endpoint has category `"config"`, else 150 if either has
category `"types"`, else 120. -/
def linkDistance (nodes : List Node) (link : Link) : Nat :=
  let sourceNode : Option Node :=
    match getNodeId link.source with
    | some i => nodes.find? (fun n => n.id = i)
    | none => none
  let targetNode : Option Node :=
    match getNodeId link.target with
    | some i => nodes.find? (fun n => n.id = i)
    | none => none
  if optCategory sourceNode = some "config" ∨ optCategory targetNode = some "config" then
    180
  else if optCategory sourceNode = some "types" ∨ optCategory targetNode = some "types" then
    150
  else
    120

/-- The resolved source node used by `linkDistance`. -/
def resolvedSource (nodes : List Node) (link : Link) : Option Node :=
  match getNodeId link.source with
  | some i => nodes.find? (fun n => n.id = i)
  | none => none

/-- The resolved target node used by `linkDistance`. -/
def resolvedTarget (nodes : List Node) (link : Link) : Option Node :=
  match getNodeId link.target with
  | some i => nodes.find? (fun n => n.id = i)
  | none => none

/-- Category-filter state: the JS object `categoryFilters` mapping category
names to booleans; a lookup on an absent key yields `undefined` (`none`). -/
def CategoryFilters : Type := String → Option Bool

/-- The initial `categoryFilters` state: eleven categories, all `true`.
`"default"` is not among the keys. -/
def initialFilters : CategoryFilters := fun c =>
  if c = "page" ∨ c = "layout" ∨ c = "component" ∨ c = "api" ∨ c = "hook" ∨
      c = "util" ∨ c = "config" ∨ c = "styles" ∨ c = "types" ∨
      c = "loading" ∨ c = "error" then
    some true
  else
    none

/-- The search predicate inside `getFilteredNodes`:
`searchTerm === "" || (node.name && node.name.toLowerCase().includes(term)) ||
(node.path && node.path.toLowerCase().includes(term))`, with the JS
truthiness guards on `name` and `path` made explicit. -/
def passesSearch (node : Node) (searchTerm : String) : Bool :=
  searchTerm = "" ||
    (node.name ≠ "" && jsIncludes (jsToLower node.name) (jsToLower searchTerm)) ||
    (match node.path with
     | some p => p ≠ "" && jsIncludes (jsToLower p) (jsToLower searchTerm)
     | none => false)

/-- The per-node predicate of `getFilteredNodes`: a falsy (missing/empty)
category rejects the node; otherwise `categoryFilters[category] ?? true`
must hold together with the search predicate. -/
def nodePasses (filters : CategoryFilters) (searchTerm : String) (node : Node) : Bool :=
  if node.category = "" then false
  else (filters node.category).getD true && passesSearch node searchTerm

/-- The function `getFilteredNodes` over an already-fetched dataset. -/
def getFilteredNodes (nodes : List Node) (filters : CategoryFilters)
    (searchTerm : String) : List Node :=
  nodes.filter (nodePasses filters searchTerm)

/-- The function `getFilteredLinks`: drop links with an undefined endpoint, then keep
links whose two endpoint ids are both ids of filtered nodes. -/
def getFilteredLinks (nodes : List Node) (links : List Link)
    (filters : CategoryFilters) (searchTerm : String) : List Link :=
  let nodeIds := (getFilteredNodes nodes filters searchTerm).map Node.id
  links.filter fun link =>
    match getNodeId link.source, getNodeId link.target with
    | some s, some t => decide (s ∈ nodeIds) && decide (t ∈ nodeIds)
    | _, _ => false

/-- The handler `toggleCategoryFilter`: `{...prev, [category]: !prev[category]}` where
JS `!undefined = true`, `!false = true`, `!true = false`. -/
def toggleCategoryFilter (filters : CategoryFilters) (category : String) :
    CategoryFilters := fun c =>
  if c = category then some (!(filters category).getD false) else filters c

/-- The node click handler: look the clicked datum up in the full node list;
if the result is (referentially) the currently selected node, clear the
selection, else select it. -/
def clickNode (nodes : List Node) (selected : Option Node) (d : Node) :
    Option Node :=
  let clickedNode := nodes.find? (fun n => n.id = d.id)
  if clickedNode = selected then none else clickedNode

/-- One step of the `forEach` in the connected-nodes effect: if the link's
source id is the selected id, add the target id to the set (and vice
versa); an undefined endpoint id can be added as `none`. -/
def connectedStep (selId : Nat) (acc : List (Option Nat)) (link : Link) :
    List (Option Nat) :=
  let sId := getNodeId link.source
  let tId := getNodeId link.target
  let acc := if sId = some selId then acc ++ [tId] else acc
  if tId = some selId then acc ++ [sId] else acc

/-- The id set accumulated by the connected-nodes effect. -/
def connectedOptIds (links : List Link) (selId : Nat) : List (Option Nat) :=
  links.foldl (connectedStep selId) []

/-- The connected-nodes effect: empty when nothing is selected or no data is
loaded; otherwise the nodes of the dataset whose id appears on the other
side of a filtered link touching the selected node's id. -/
def connectedNodes (graph : Option GraphData) (filters : CategoryFilters)
    (term : String) (selected : Option Node) : List Node :=
  match selected, graph with
  | some sel, some g =>
    let ids := connectedOptIds
      (getFilteredLinks g.nodes g.links filters term) sel.id
    g.nodes.filter (fun n => decide (some n.id ∈ ids))
  | _, _ => []

/-- The tab-panel state: opened files, the selected file, and the active
tab of the code panel. -/
structure TabsState where
  openedFiles : List Node := []
  selectedFile : Option Node := none
  activeTab : String := "code"
deriving DecidableEq, Repr

/-- The initial tab state of the component. -/
def initialTabs : TabsState := {}

/-- The helper `openFile`: append the node to the opened list unless a file with its
id is already there, select it, and switch to the code tab. -/
def openFile (s : TabsState) (node : Node) : TabsState :=
  { openedFiles :=
      if (s.openedFiles.find? (fun f => f.id = node.id)).isNone then
        s.openedFiles ++ [node]
      else s.openedFiles,
    selectedFile := some node,
    activeTab := "code" }

/-- The close handler of an opened-files tab: remove every entry with the
closed file's id, and clear the selected file if it was the closed one. -/
def closeTab (s : TabsState) (file : Node) : TabsState :=
  { s with
    openedFiles := s.openedFiles.filter (fun f => decide (f.id ≠ file.id)),
    selectedFile :=
      if s.selectedFile.map Node.id = some file.id then none
      else s.selectedFile }

/-- An interaction with the opened-files list. -/
inductive TabOp where
  | openOp (n : Node)
  | closeOp (n : Node)

/-- Apply one tab interaction. -/
def applyTabOp (s : TabsState) : TabOp → TabsState
  | .openOp n => openFile s n
  | .closeOp n => closeTab s n

/-- Apply a sequence of tab interactions. -/
def runTabOps (s : TabsState) (ops : List TabOp) : TabsState :=
  ops.foldl applyTabOp s

/-- JS `Array.prototype.indexOf` (first occurrence, `-1` when absent). -/
def jsIndexOf {α : Type} [DecidableEq α] : List α → α → Int
  | [], _ => -1
  | x :: xs, a =>
    if x = a then 0
    else
      let r := jsIndexOf xs a
      if r = -1 then -1 else r + 1

/-- The duplicate-link test of the tick handler: `l` connects the same
unordered node pair as `d` (either orientation). -/
def samePair (l d : Link) : Bool :=
  let s1 := getNodeId l.source
  let t1 := getNodeId l.target
  let s2 := getNodeId d.source
  let t2 := getNodeId d.target
  (s1 = s2 && t1 = t2) || (s1 = t2 && t1 = s2)

/-- JS `sourceNode?.x ?? 0` for an endpoint resolved against the filtered
node list. -/
def nodeX (data : List Node) (e : Endpoint) : ℚ :=
  ((getNodeById data e).bind Node.x).getD 0

/-- JS `sourceNode?.y ?? 0` for an endpoint resolved against the filtered
node list. -/
def nodeY (data : List Node) (e : Endpoint) : ℚ :=
  ((getNodeById data e).bind Node.y).getD 0

/-- The rendered SVG path of a link: a straight segment `M… L…` or a
quadratic curve `M… Q… …` through an offset midpoint. -/
inductive SvgPath where
  | line (x1 y1 x2 y2 : ℚ)
  | quad (x1 y1 mx my x2 y2 : ℚ)
deriving DecidableEq, Repr

/-- The link-path computation of the tick handler: collect all filtered
links connecting the same unordered pair as `d`; with more than one
member, curve through the midpoint offset by
`(indexOf d - (count - 1) / 2) * 20` on both axes, else draw the straight
segment. -/
def linkPath (filteredNodes : List Node) (filteredLinks : List Link)
    (d : Link) : SvgPath :=
  let sourceX := nodeX filteredNodes d.source
  let sourceY := nodeY filteredNodes d.source
  let targetX := nodeX filteredNodes d.target
  let targetY := nodeY filteredNodes d.target
  let multipleLinks := filteredLinks.filter (fun l => samePair l d)
  if multipleLinks.length > 1 then
    let index := jsIndexOf multipleLinks d
    let offset := ((index : ℚ) - ((multipleLinks.length : ℚ) - 1) / 2) * 20
    .quad sourceX sourceY ((sourceX + targetX) / 2 + offset)
      ((sourceY + targetY) / 2 + offset) targetX targetY
  else
    .line sourceX sourceY targetX targetY

/-- The simulation state the drag handlers touch: the alpha target and
whether the tick loop has been (re)started. -/
structure SimState where
  alphaTarget : ℚ := 0
  running : Bool := false
deriving DecidableEq, Repr

/-- The drag `start` handler: when no other gesture is active, raise the
alpha target to 0.3 and restart the tick loop; pin the node at its current
position (`d.fx = d.x; d.fy = d.y`). -/
def dragStarted (active : Bool) (sim : SimState) (d : Node) :
    SimState × Node :=
  let sim :=
    if !active then { sim with alphaTarget := 0.3, running := true } else sim
  (sim, { d with fx := d.x, fy := d.y })

/-- The drag `drag` handler: move the pin to the pointer position. -/
def dragged (ex ey : ℚ) (d : Node) : Node :=
  { d with fx := some ex, fy := some ey }

/-- The drag `end` handler: when no other gesture is active, set the alpha
target back to 0; release the pin (`d.fx = null; d.fy = null`). -/
def dragEnded (active : Bool) (sim : SimState) (d : Node) :
    SimState × Node :=
  let sim := if !active then { sim with alphaTarget := 0 } else sim
  (sim, { d with fx := none, fy := none })

/-- Modelled from the spec: the per-tick position integration of the force
engine (the simulation internals live in the d3 library, outside this
repository).  "A pinned node (fixed x/fixed y both set) is excluded from
integration — its position is authoritative regardless of what forces
compute"; an unpinned node is moved by the displacement the forces
computed for this tick. -/
def tickNode (dx dy : ℚ) (d : Node) : Node :=
  match d.fx, d.fy with
  | some fx, some fy => { d with x := some fx, y := some fy }
  | _, _ => { d with x := some (d.x.getD 0 + dx), y := some (d.y.getD 0 + dy) }

/-- The fixed nine-color palette of `fetchGraphData` in `graph.tsx`. -/
def colorPalette : List String :=
  ["#4a90e2", "#50e3c2", "#7ed321", "#f5a623", "#bd10e0", "#d0021b",
   "#9b9b9b", "#9013fe", "#f8e71c"]

/-- The color assignment of `fetchGraphData` in `graph.tsx`, with the
per-node random palette index supplied as `r`:
`{...node, color: colorPalette[r i]}` for the `i`-th node. -/
def assignColorsFrom (r : Nat → Nat) (i : Nat) : List Node → List Node
  | [] => []
  | node :: rest =>
    { node with color := colorPalette.get? (r i) } ::
      assignColorsFrom r (i + 1) rest

/-- In JS: `data.nodes.map(node => ({...node, color: colorPalette[…random…]}))`. -/
def assignColors (r : Nat → Nat) (nodes : List Node) : List Node :=
  assignColorsFrom r 0 nodes

/-- The color string of the variant component (`part_002`):
`"#" + k.toString(16)` for a random integer `k`. -/
def hexColor (k : Nat) : String :=
  "#" ++ (Nat.toDigits 16 k).asString

/-- The color assignment of `fetchGraphData` in the variant component
(`part_002`): every node gets a random 24-bit hex color. -/
def assignRandomColorsFrom (r : Nat → Nat) (i : Nat) : List Node → List Node
  | [] => []
  | node :: rest =>
    { node with color := some (hexColor (r i)) } ::
      assignRandomColorsFrom r (i + 1) rest

/-- In JS: `data.nodes.map(node => ({...node, color: "#" + …random….toString(16)}))`. -/
def assignRandomColors (r : Nat → Nat) (nodes : List Node) : List Node :=
  assignRandomColorsFrom r 0 nodes

end Wt

namespace Wt

/-- C1: the link rest distance is 180 when either resolved endpoint has
category `"config"`, else 150 when either has category `"types"`, else 120;
on the concrete scenario `nodes = [{id 1, config}, {id 2, component}]`,
`link {source 1, target 2}` the distance is 180; and when one endpoint is
`"config"` and the other `"types"` the config rule wins. -/
theorem c1_link_distance :
    (∀ (nodes : List Node) (link : Link),
      (optCategory (resolvedSource nodes link) = some "config" ∨
        optCategory (resolvedTarget nodes link) = some "config" →
        linkDistance nodes link = 180) ∧
      (optCategory (resolvedSource nodes link) ≠ some "config" →
        optCategory (resolvedTarget nodes link) ≠ some "config" →
        (optCategory (resolvedSource nodes link) = some "types" ∨
          optCategory (resolvedTarget nodes link) = some "types") →
        linkDistance nodes link = 150) ∧
      (optCategory (resolvedSource nodes link) ≠ some "config" →
        optCategory (resolvedTarget nodes link) ≠ some "config" →
        optCategory (resolvedSource nodes link) ≠ some "types" →
        optCategory (resolvedTarget nodes link) ≠ some "types" →
        linkDistance nodes link = 120)) ∧
    linkDistance
      [{ id := 1, name := "a", category := "config" },
       { id := 2, name := "b", category := "component" }]
      { source := .ref 1, target := .ref 2 } = 180 ∧
    (∀ (nodes : List Node) (link : Link),
      optCategory (resolvedSource nodes link) = some "config" →
      optCategory (resolvedTarget nodes link) = some "types" →
      linkDistance nodes link = 180) := by
  refine ⟨fun nodes link => ⟨?_, ?_, ?_⟩, by decide, fun nodes link hc _ => ?_⟩
  · intro h
    simp only [linkDistance, resolvedSource, resolvedTarget] at *
    rw [if_pos h]
  · intro hs ht h
    simp only [linkDistance, resolvedSource, resolvedTarget] at *
    rw [if_neg (by tauto), if_pos h]
  · intro hs ht hs2 ht2
    simp only [linkDistance, resolvedSource, resolvedTarget] at *
    rw [if_neg (by tauto), if_neg (by tauto)]
  · simp only [linkDistance, resolvedSource, resolvedTarget] at *
    rw [if_pos (Or.inl hc)]

/-- Witness for C1: the hypotheses are satisfiable — on the concrete scenario
the config branch fires and the distance is 180. -/
theorem c1_link_distance_witness :
    linkDistance
      [{ id := 1, name := "a", category := "config" },
       { id := 2, name := "b", category := "component" }]
      { source := .ref 1, target := .ref 2 } = 180 := by
  have h := (c1_link_distance.1
    [{ id := 1, name := "a", category := "config" },
     { id := 2, name := "b", category := "component" }]
    { source := .ref 1, target := .ref 2 }).1
  exact h (Or.inl (by decide))

lemma jsToLower_eq_empty {t : String} : jsToLower t = "" ↔ t = "" := by
  cases t with
  | mk data =>
    cases data with
    | nil => simp [jsToLower]
    | cons c cs =>
      constructor
      · intro h
        exact absurd (congrArg String.data h) (by simp [jsToLower])
      · intro h
        exact absurd (congrArg String.data h) (by simp)

lemma jsIncludes_empty_hay {t : String} (h : t ≠ "") : jsIncludes "" t = false := by
  rw [jsIncludes, decide_eq_false_iff_not]
  intro hinf
  have : t.toList = [] := List.eq_nil_of_infix_nil hinf
  exact h (by cases t with
    | mk data => cases data with
      | nil => rfl
      | cons c cs => exact absurd this (by simp [String.toList]))

lemma jsIncludes_true_hay_ne {s t : String} (ht : jsToLower t ≠ "")
    (hincl : jsIncludes (jsToLower s) (jsToLower t) = true) : s ≠ "" := by
  intro hs
  subst hs
  rw [show jsToLower "" = "" from rfl] at hincl
  rw [jsIncludes_empty_hay ht] at hincl
  exact Bool.false_ne_true hincl

/-- The search predicate, stated without the JS truthiness guards (the
guards are redundant: a nonempty search term never occurs inside an empty
string). -/
lemma passesSearch_iff (node : Node) (term : String) :
    passesSearch node term = true ↔
      term = "" ∨
        jsIncludes (jsToLower node.name) (jsToLower term) = true ∨
        ∃ p, node.path = some p ∧ jsIncludes (jsToLower p) (jsToLower term) = true := by
  by_cases hterm : term = ""
  · subst hterm
    simp [passesSearch]
  · have hlt : jsToLower term ≠ "" := fun h => hterm (jsToLower_eq_empty.mp h)
    unfold passesSearch
    cases hp : node.path with
    | none =>
      simp only [hp, Bool.or_eq_true, Bool.and_eq_true, decide_eq_true_eq, hterm,
        false_or, Bool.false_eq_true, or_false]
      constructor
      · rintro ⟨-, h⟩
        exact Or.inl h
      · rintro (h | ⟨p, hps, -⟩)
        · exact ⟨jsIncludes_true_hay_ne hlt h, h⟩
        · exact absurd hps (by simp)
    | some p =>
      simp only [hp, Bool.or_eq_true, Bool.and_eq_true, decide_eq_true_eq, hterm,
        false_or, Option.some.injEq]
      constructor
      · rintro (⟨-, h⟩ | ⟨-, h⟩)
        · exact Or.inl h
        · exact Or.inr ⟨p, rfl, h⟩
      · rintro (h | ⟨q, rfl, h⟩)
        · exact Or.inl ⟨jsIncludes_true_hay_ne hlt h, h⟩
        · exact Or.inr ⟨jsIncludes_true_hay_ne hlt h, h⟩

/-- Membership in the filtered node set, unfolded to the two conjuncts of
the node predicate. -/
lemma mem_getFilteredNodes_iff (nodes : List Node) (filters : CategoryFilters)
    (term : String) (node : Node) (hmem : node ∈ nodes) (hcat : node.category ≠ "") :
    node ∈ getFilteredNodes nodes filters term ↔
      (filters node.category).getD true = true ∧ passesSearch node term = true := by
  rw [getFilteredNodes, List.mem_filter]
  rw [nodePasses, if_neg hcat, Bool.and_eq_true]
  simp [hmem]

/-- C2: every link kept by `getFilteredLinks` has both endpoint ids among
the ids of the filtered node set; links with an undefined endpoint are
dropped (dangling references to nonexistent node ids cannot pass, because
a nonexistent id is not the id of any filtered node). -/
theorem c2_no_dangling_links :
    (∀ (nodes : List Node) (links : List Link) (filters : CategoryFilters)
        (term : String) (link : Link),
      link ∈ getFilteredLinks nodes links filters term →
      ∃ s t, getNodeId link.source = some s ∧ getNodeId link.target = some t ∧
        s ∈ (getFilteredNodes nodes filters term).map Node.id ∧
        t ∈ (getFilteredNodes nodes filters term).map Node.id) ∧
    (∀ (nodes : List Node) (links : List Link) (filters : CategoryFilters)
        (term : String) (link : Link),
      getNodeId link.source = none ∨ getNodeId link.target = none →
      link ∉ getFilteredLinks nodes links filters term) := by
  constructor
  · intro nodes links filters term link hmem
    rw [getFilteredLinks, List.mem_filter] at hmem
    obtain ⟨-, hp⟩ := hmem
    revert hp
    cases hs : getNodeId link.source with
    | none => simp
    | some s =>
      cases ht : getNodeId link.target with
      | none => simp
      | some t =>
        simp only [Bool.and_eq_true, decide_eq_true_eq]
        rintro ⟨h1, h2⟩
        exact ⟨s, t, rfl, rfl, h1, h2⟩
  · intro nodes links filters term link hundef hmem
    rw [getFilteredLinks, List.mem_filter] at hmem
    obtain ⟨-, hp⟩ := hmem
    rcases hundef with h | h <;> rw [h] at hp
    · exact Bool.false_ne_true hp
    · revert hp
      cases getNodeId link.source <;> simp

/-- Witness for C2: a concrete link between two visible nodes is kept, and
its endpoints are ids of filtered nodes. -/
theorem c2_no_dangling_links_witness :
    ∃ s t,
      getNodeId (Endpoint.ref 1) = some s ∧ getNodeId (Endpoint.ref 2) = some t ∧
      s ∈ (getFilteredNodes
            [{ id := 1, name := "a", category := "component" },
             { id := 2, name := "b", category := "util" }] initialFilters "").map Node.id ∧
      t ∈ (getFilteredNodes
            [{ id := 1, name := "a", category := "component" },
             { id := 2, name := "b", category := "util" }] initialFilters "").map Node.id := by
  have h := c2_no_dangling_links.1
    [{ id := 1, name := "a", category := "component" },
     { id := 2, name := "b", category := "util" }]
    [{ source := .ref 1, target := .ref 2 }] initialFilters ""
    { source := .ref 1, target := .ref 2 } (by decide)
  exact h

/-- C3: a node with a (nonempty) category is in the filtered node set iff
its category flag is enabled (`categoryFilters[category] ?? true`) and the
search term is empty or a case-insensitive substring of its name or path;
with search term `"app"`, node `"App.tsx"` passes the search predicate and
node `"graph.tsx"` does not. -/
theorem c3_node_filter :
    (∀ (nodes : List Node) (filters : CategoryFilters) (term : String) (node : Node),
      node ∈ nodes → node.category ≠ "" →
      (node ∈ getFilteredNodes nodes filters term ↔
        (filters node.category).getD true = true ∧
          (term = "" ∨
            jsIncludes (jsToLower node.name) (jsToLower term) = true ∨
            ∃ p, node.path = some p ∧
              jsIncludes (jsToLower p) (jsToLower term) = true))) ∧
    passesSearch { id := 1, name := "App.tsx", category := "component" } "app" = true ∧
    passesSearch { id := 2, name := "graph.tsx", category := "component" } "app" = false := by
  refine ⟨fun nodes filters term node hmem hcat => ?_, by decide, by decide⟩
  rw [mem_getFilteredNodes_iff nodes filters term node hmem hcat,
    passesSearch_iff]

/-- Witness for C3: on a concrete node, filter state and search term, the
characterization evaluates as stated. -/
theorem c3_node_filter_witness :
    { id := 1, name := "App.tsx", category := "component" : Node } ∈
        getFilteredNodes [{ id := 1, name := "App.tsx", category := "component" }]
          initialFilters "app" ↔
      (initialFilters "component").getD true = true ∧
        ("app" = "" ∨
          jsIncludes (jsToLower "App.tsx") (jsToLower "app") = true ∨
          ∃ p, ({ id := 1, name := "App.tsx", category := "component" : Node }).path = some p ∧
            jsIncludes (jsToLower p) (jsToLower "app") = true) :=
  c3_node_filter.1 [{ id := 1, name := "App.tsx", category := "component" }]
    initialFilters "app" { id := 1, name := "App.tsx", category := "component" }
    (by decide) (by decide)

/-- C7 counterexample: the category `"default"` is not a key of the initial
filter map, so its implicit flag is `undefined`, read back as enabled; the
first toggle stores `!undefined = true` and the second stores `false`, so
after toggling `"default"` off and on again a `"default"` node disappears
from the filtered node set. -/
theorem c7_counterexample :
    getFilteredNodes [{ id := 1, name := "a", category := "default" }]
        (toggleCategoryFilter (toggleCategoryFilter initialFilters "default") "default") ""
      ≠ getFilteredNodes [{ id := 1, name := "a", category := "default" }]
          initialFilters "" := by
  decide

/-- C7 amended: for a category that is present as a key of the filter map,
toggling it off and on again restores the original filter function, hence
the original filtered node set, for any dataset and search term. -/
theorem c7_double_toggle :
    ∀ (nodes : List Node) (filters : CategoryFilters) (term : String)
      (c : String) (b : Bool), filters c = some b →
      getFilteredNodes nodes
          (toggleCategoryFilter (toggleCategoryFilter filters c) c) term =
        getFilteredNodes nodes filters term := by
  intro nodes filters term c b h
  have ht : toggleCategoryFilter (toggleCategoryFilter filters c) c = filters := by
    funext c'
    by_cases hc : c' = c
    · subst hc
      simp [toggleCategoryFilter, h]
    · simp [toggleCategoryFilter, hc]
  rw [ht]

/-- Witness for C7's amended claim: double-toggling `"page"`, a key of the
initial map, leaves a concrete filtered node set unchanged. -/
theorem c7_double_toggle_witness :
    getFilteredNodes [{ id := 1, name := "a", category := "page" }]
        (toggleCategoryFilter (toggleCategoryFilter initialFilters "page") "page") ""
      = getFilteredNodes [{ id := 1, name := "a", category := "page" }]
          initialFilters "" :=
  c7_double_toggle [{ id := 1, name := "a", category := "page" }]
    initialFilters "" "page" true (by decide)

/-- C10: a node whose category is absent from the filter map falls back to
enabled (`?? true`), so it is filtered in exactly when it passes the search
predicate; `"default"` is such a category for the initial map; and a node
whose own category is missing/empty is always filtered out. -/
theorem c10_unknown_category_default_enabled :
    (∀ (nodes : List Node) (filters : CategoryFilters) (term : String) (node : Node),
      node ∈ nodes → node.category ≠ "" → filters node.category = none →
      (node ∈ getFilteredNodes nodes filters term ↔ passesSearch node term = true)) ∧
    initialFilters "default" = none ∧
    (∀ (nodes : List Node) (filters : CategoryFilters) (term : String) (node : Node),
      node.category = "" → node ∉ getFilteredNodes nodes filters term) := by
  refine ⟨fun nodes filters term node hmem hcat hnone => ?_, by decide,
    fun nodes filters term node hcat hmem => ?_⟩
  · rw [mem_getFilteredNodes_iff nodes filters term node hmem hcat, hnone]
    simp
  · rw [getFilteredNodes, List.mem_filter, nodePasses, if_pos hcat] at hmem
    exact Bool.false_ne_true hmem.2

/-- Witness for C10: a concrete `"default"` node is visible under the
initial filters with an empty search term. -/
theorem c10_unknown_category_default_enabled_witness :
    { id := 1, name := "a", category := "default" : Node } ∈
        getFilteredNodes [{ id := 1, name := "a", category := "default" }]
          initialFilters "" ↔
      passesSearch { id := 1, name := "a", category := "default" } "" = true :=
  c10_unknown_category_default_enabled.1
    [{ id := 1, name := "a", category := "default" }] initialFilters ""
    { id := 1, name := "a", category := "default" } (by decide) (by decide)
    (by decide)

/-- The per-link contribution to the connected-id set. -/
def linkContrib (selId : Nat) (l : Link) : List (Option Nat) :=
  (if getNodeId l.source = some selId then [getNodeId l.target] else []) ++
    (if getNodeId l.target = some selId then [getNodeId l.source] else [])

lemma connectedStep_eq_append (selId : Nat) (acc : List (Option Nat)) (l : Link) :
    connectedStep selId acc l = acc ++ linkContrib selId l := by
  unfold connectedStep linkContrib
  by_cases hs : getNodeId l.source = some selId <;>
    by_cases ht : getNodeId l.target = some selId <;>
      simp [hs, ht]

lemma foldl_connectedStep (selId : Nat) (links : List Link) :
    ∀ acc : List (Option Nat),
      links.foldl (connectedStep selId) acc = acc ++ links.flatMap (linkContrib selId) := by
  induction links with
  | nil => intro acc; simp
  | cons l ls ih =>
    intro acc
    rw [List.foldl_cons, ih, connectedStep_eq_append, List.flatMap_cons,
      List.append_assoc]

lemma mem_connectedOptIds (links : List Link) (selId : Nat) (o : Option Nat) :
    o ∈ connectedOptIds links selId ↔
      ∃ l ∈ links,
        (getNodeId l.source = some selId ∧ getNodeId l.target = o) ∨
          (getNodeId l.target = some selId ∧ getNodeId l.source = o) := by
  rw [connectedOptIds, foldl_connectedStep, List.nil_append, List.mem_flatMap]
  constructor
  · rintro ⟨l, hl, hmem⟩
    refine ⟨l, hl, ?_⟩
    unfold linkContrib at hmem
    rw [List.mem_append] at hmem
    rcases hmem with h | h
    · by_cases hs : getNodeId l.source = some selId
      · rw [if_pos hs, List.mem_singleton] at h
        exact Or.inl ⟨hs, h.symm⟩
      · rw [if_neg hs] at h
        exact absurd h (List.not_mem_nil o)
    · by_cases ht : getNodeId l.target = some selId
      · rw [if_pos ht, List.mem_singleton] at h
        exact Or.inr ⟨ht, h.symm⟩
      · rw [if_neg ht] at h
        exact absurd h (List.not_mem_nil o)
  · rintro ⟨l, hl, h | h⟩
    · exact ⟨l, hl, by simp [linkContrib, h.1, h.2.symm]⟩
    · exact ⟨l, hl, by simp [linkContrib, h.1, h.2.symm]⟩

/-- C5: clicking the already-selected node clears the selection; with no
selection the connected-node set is empty; clicking a different node
selects it; and the connected set of a selected node consists of exactly
the dataset nodes appearing as the other endpoint of some filtered link
touching the selected id. -/
theorem c5_selection_toggle :
    (∀ (nodes : List Node) (sel d : Node),
      nodes.find? (fun n => n.id = d.id) = some sel →
      clickNode nodes (some sel) d = none) ∧
    (∀ (graph : Option GraphData) (filters : CategoryFilters) (term : String),
      connectedNodes graph filters term none = []) ∧
    (∀ (nodes : List Node) (selected : Option Node) (d n : Node),
      nodes.find? (fun m => m.id = d.id) = some n → some n ≠ selected →
      clickNode nodes selected d = some n) ∧
    (∀ (g : GraphData) (filters : CategoryFilters) (term : String) (sel n : Node),
      n ∈ connectedNodes (some g) filters term (some sel) ↔
        n ∈ g.nodes ∧
          ∃ l ∈ getFilteredLinks g.nodes g.links filters term,
            (getNodeId l.source = some sel.id ∧ getNodeId l.target = some n.id) ∨
              (getNodeId l.target = some sel.id ∧ getNodeId l.source = some n.id)) := by
  refine ⟨fun nodes sel d h => ?_, fun graph filters term => ?_,
    fun nodes selected d n h hne => ?_, fun g filters term sel n => ?_⟩
  · rw [clickNode, h, if_pos rfl]
  · cases graph <;> rfl
  · rw [clickNode, h, if_neg hne]
  · show n ∈ List.filter _ g.nodes ↔ _
    rw [List.mem_filter, decide_eq_true_eq, mem_connectedOptIds]

/-- Witness for C5: on a two-node, one-link dataset, clicking the selected
node clears the selection. -/
theorem c5_selection_toggle_witness :
    clickNode
      [{ id := 1, name := "a", category := "component" },
       { id := 2, name := "b", category := "component" }]
      (some { id := 1, name := "a", category := "component" })
      { id := 1, name := "a", category := "component" } = none :=
  c5_selection_toggle.1
    [{ id := 1, name := "a", category := "component" },
     { id := 2, name := "b", category := "component" }]
    { id := 1, name := "a", category := "component" }
    { id := 1, name := "a", category := "component" } (by decide)

lemma openFile_nodup {s : TabsState} (node : Node)
    (h : (s.openedFiles.map Node.id).Nodup) :
    ((openFile s node).openedFiles.map Node.id).Nodup := by
  unfold openFile
  by_cases hfind : (s.openedFiles.find? (fun f => f.id = node.id)).isNone
  · rw [if_pos hfind]
    rw [Option.isNone_iff_eq_none, List.find?_eq_none] at hfind
    rw [List.map_append, List.nodup_append]
    refine ⟨h, List.nodup_singleton _, ?_⟩
    intro i hi hj
    rw [List.mem_map] at hi
    obtain ⟨f, hf, rfl⟩ := hi
    rw [List.map_cons, List.map_nil, List.mem_singleton] at hj
    exact hfind f hf (by simpa using hj)
  · rw [if_neg hfind]
    exact h

lemma closeTab_nodup {s : TabsState} (file : Node)
    (h : (s.openedFiles.map Node.id).Nodup) :
    ((closeTab s file).openedFiles.map Node.id).Nodup := by
  unfold closeTab
  exact List.Nodup.sublist (List.Sublist.map _ (List.filter_sublist _)) h

lemma runTabOps_nodup (ops : List TabOp) :
    ∀ s : TabsState, (s.openedFiles.map Node.id).Nodup →
      ((runTabOps s ops).openedFiles.map Node.id).Nodup := by
  induction ops with
  | nil => intro s h; exact h
  | cons op ops ih =>
    intro s h
    rw [runTabOps, List.foldl_cons]
    refine ih _ ?_
    cases op with
    | openOp n => exact openFile_nodup n h
    | closeOp n => exact closeTab_nodup n h

/-- C9: after any sequence of open/close interactions starting from the
initial state, the opened-files ids are duplicate-free; opening an
already-open id leaves the list unchanged while still selecting the file;
closing removes exactly the entries with the closed id; and closing the
currently selected file clears the selection. -/
theorem c9_tab_list_unique :
    (∀ ops : List TabOp,
      ((runTabOps initialTabs ops).openedFiles.map Node.id).Nodup) ∧
    (∀ (s : TabsState) (node f : Node),
      s.openedFiles.find? (fun g => g.id = node.id) = some f →
      (openFile s node).openedFiles = s.openedFiles ∧
        (openFile s node).selectedFile = some node) ∧
    (∀ (s : TabsState) (file f : Node),
      f ∈ (closeTab s file).openedFiles ↔ f ∈ s.openedFiles ∧ f.id ≠ file.id) ∧
    (∀ (s : TabsState) (file : Node),
      s.selectedFile.map Node.id = some file.id →
      (closeTab s file).selectedFile = none) := by
  refine ⟨fun ops => runTabOps_nodup ops initialTabs (by decide),
    fun s node f h => ?_, fun s file f => ?_, fun s file h => ?_⟩
  · constructor
    · rw [openFile]
      simp [h]
    · rfl
  · rw [closeTab]
    simp [List.mem_filter]
  · rw [closeTab, if_pos h]

/-- Witness for C9: opening a file whose id is already open leaves the
concrete opened list unchanged. -/
theorem c9_tab_list_unique_witness :
    (openFile
        { openedFiles := [{ id := 1, name := "a", category := "component" }],
          selectedFile := none, activeTab := "code" }
        { id := 1, name := "a", category := "component" }).openedFiles =
      [{ id := 1, name := "a", category := "component" }] ∧
    (openFile
        { openedFiles := [{ id := 1, name := "a", category := "component" }],
          selectedFile := none, activeTab := "code" }
        { id := 1, name := "a", category := "component" }).selectedFile =
      some { id := 1, name := "a", category := "component" } :=
  c9_tab_list_unique.2.1
    { openedFiles := [{ id := 1, name := "a", category := "component" }],
      selectedFile := none, activeTab := "code" }
    { id := 1, name := "a", category := "component" }
    { id := 1, name := "a", category := "component" } (by decide)

/-- C4: a link whose unordered-pair group among the visible links has
exactly one member is drawn as the straight segment between its endpoint
positions; a link in a group of `k > 1` members at group index `i` is
drawn as a quadratic curve whose midpoint is offset by
`(i - (k - 1) / 2) * 20` on both axes; for a group of exactly two the two
indices 0 and 1 give offsets `-10` and `+10`. -/
theorem c4_parallel_edge_routing :
    (∀ (ns : List Node) (ls : List Link) (d : Link),
      (ls.filter (fun l => samePair l d)).length = 1 →
      linkPath ns ls d =
        .line (nodeX ns d.source) (nodeY ns d.source)
          (nodeX ns d.target) (nodeY ns d.target)) ∧
    (∀ (ns : List Node) (ls : List Link) (d : Link) (i : Int),
      (ls.filter (fun l => samePair l d)).length > 1 →
      jsIndexOf (ls.filter (fun l => samePair l d)) d = i →
      linkPath ns ls d =
        .quad (nodeX ns d.source) (nodeY ns d.source)
          ((nodeX ns d.source + nodeX ns d.target) / 2 +
            ((i : ℚ) -
              (((ls.filter (fun l => samePair l d)).length : ℚ) - 1) / 2) * 20)
          ((nodeY ns d.source + nodeY ns d.target) / 2 +
            ((i : ℚ) -
              (((ls.filter (fun l => samePair l d)).length : ℚ) - 1) / 2) * 20)
          (nodeX ns d.target) (nodeY ns d.target)) ∧
    (∀ (ns : List Node) (ls : List Link) (d : Link),
      (ls.filter (fun l => samePair l d)).length = 2 →
      jsIndexOf (ls.filter (fun l => samePair l d)) d = 0 →
      linkPath ns ls d =
        .quad (nodeX ns d.source) (nodeY ns d.source)
          ((nodeX ns d.source + nodeX ns d.target) / 2 + (-10))
          ((nodeY ns d.source + nodeY ns d.target) / 2 + (-10))
          (nodeX ns d.target) (nodeY ns d.target)) ∧
    (∀ (ns : List Node) (ls : List Link) (d : Link),
      (ls.filter (fun l => samePair l d)).length = 2 →
      jsIndexOf (ls.filter (fun l => samePair l d)) d = 1 →
      linkPath ns ls d =
        .quad (nodeX ns d.source) (nodeY ns d.source)
          ((nodeX ns d.source + nodeX ns d.target) / 2 + 10)
          ((nodeY ns d.source + nodeY ns d.target) / 2 + 10)
          (nodeX ns d.target) (nodeY ns d.target)) := by
  refine ⟨fun ns ls d h1 => ?_, fun ns ls d i hgt hidx => ?_,
    fun ns ls d h2 hidx => ?_, fun ns ls d h2 hidx => ?_⟩
  · simp only [linkPath, h1]
    norm_num
  · simp only [linkPath, hidx]
    rw [if_pos hgt]
  · simp only [linkPath, hidx, h2]
    norm_num
  · simp only [linkPath, hidx, h2]
    norm_num

/-- Witness for C4: two parallel links between nodes 1 and 2; the first
link of the group is drawn with midpoint offset `-10` on both axes. -/
theorem c4_parallel_edge_routing_witness :
    linkPath
      [{ id := 1, name := "a", category := "component" },
       { id := 2, name := "b", category := "component" }]
      [{ source := .ref 1, target := .ref 2, relation := "imports" },
       { source := .ref 2, target := .ref 1, relation := "uses" }]
      { source := .ref 1, target := .ref 2, relation := "imports" } =
      .quad
        (nodeX [{ id := 1, name := "a", category := "component" },
                { id := 2, name := "b", category := "component" }]
          (.ref 1))
        (nodeY [{ id := 1, name := "a", category := "component" },
                { id := 2, name := "b", category := "component" }]
          (.ref 1))
        ((nodeX [{ id := 1, name := "a", category := "component" },
                 { id := 2, name := "b", category := "component" }]
            (.ref 1) +
          nodeX [{ id := 1, name := "a", category := "component" },
                 { id := 2, name := "b", category := "component" }]
            (.ref 2)) / 2 + (-10))
        ((nodeY [{ id := 1, name := "a", category := "component" },
                 { id := 2, name := "b", category := "component" }]
            (.ref 1) +
          nodeY [{ id := 1, name := "a", category := "component" },
                 { id := 2, name := "b", category := "component" }]
            (.ref 2)) / 2 + (-10))
        (nodeX [{ id := 1, name := "a", category := "component" },
                { id := 2, name := "b", category := "component" }]
          (.ref 2))
        (nodeY [{ id := 1, name := "a", category := "component" },
                { id := 2, name := "b", category := "component" }]
          (.ref 2)) :=
  c4_parallel_edge_routing.2.2.1
    [{ id := 1, name := "a", category := "component" },
     { id := 2, name := "b", category := "component" }]
    [{ source := .ref 1, target := .ref 2, relation := "imports" },
     { source := .ref 2, target := .ref 1, relation := "uses" }]
    { source := .ref 1, target := .ref 2, relation := "imports" }
    (by decide) (by decide)

/-- C6: starting a drag (with no other gesture active) pins the node at
its current position and reheats the simulation (alpha target 0.3, tick
loop restarted); while the pin follows the pointer, the tick integration
puts the node exactly at the supplied position regardless of the force
displacement; ending the drag sets the alpha target back to 0 and releases
the pin, after which a tick moves the node by the force displacement
again. -/
theorem c6_drag_pin_reheat :
    (∀ (sim : SimState) (d : Node),
      (dragStarted false sim d).1.alphaTarget = 0.3 ∧
        (dragStarted false sim d).1.running = true ∧
        (dragStarted false sim d).2.fx = d.x ∧
        (dragStarted false sim d).2.fy = d.y) ∧
    (∀ (d : Node) (ex ey dx dy : ℚ),
      (tickNode dx dy (dragged ex ey d)).x = some ex ∧
        (tickNode dx dy (dragged ex ey d)).y = some ey) ∧
    (∀ (sim : SimState) (d : Node),
      (dragEnded false sim d).1.alphaTarget = 0 ∧
        (dragEnded false sim d).2.fx = none ∧
        (dragEnded false sim d).2.fy = none) ∧
    (∀ (sim : SimState) (d : Node) (dx dy : ℚ),
      (tickNode dx dy (dragEnded false sim d).2).x =
        some ((dragEnded false sim d).2.x.getD 0 + dx) ∧
        (tickNode dx dy (dragEnded false sim d).2).y =
          some ((dragEnded false sim d).2.y.getD 0 + dy)) :=
  ⟨fun _ _ => ⟨rfl, rfl, rfl, rfl⟩,
    fun _ _ _ _ _ => ⟨rfl, rfl⟩,
    fun _ _ => ⟨rfl, rfl, rfl⟩,
    fun _ _ _ _ => ⟨rfl, rfl⟩⟩

/-- C8 counterexample: a node that arrives with a supplied color
(`"#123456"`) still has its color overwritten by the palette draw — the
assignment is unconditional, not "only if none is supplied". -/
theorem c8_counterexample :
    ((assignColors (fun _ => 0)
        [{ id := 1, name := "a", category := "component",
           color := some "#123456" }]).map Node.color) = [some "#4a90e2"] ∧
    ((assignColors (fun _ => 0)
        [{ id := 1, name := "a", category := "component",
           color := some "#123456" }]).map Node.color) ≠ [some "#123456"] := by
  constructor
  · decide
  · decide

/-- C8 amended: the fetch handler overwrites every node's color
unconditionally; in `graph.tsx` every assigned color is drawn from the
fixed nine-element palette (whenever the random index is in range, as
`Math.floor(Math.random()*9)` always is), while the variant component
(`part_002`) instead assigns `"#" + random.toString(16)` strings that are
not drawn from the palette. -/
theorem c8_palette_colors :
    (∀ (r : Nat → Nat) (nodes : List Node),
      (∀ i, r i < colorPalette.length) →
      ∀ n ∈ assignColors r nodes, ∃ c ∈ colorPalette, n.color = some c) ∧
    colorPalette.length = 9 ∧
    ((assignRandomColors (fun _ => 255)
        [{ id := 1, name := "a", category := "component" }]).map Node.color =
      [some "#ff"] ∧ "#ff" ∉ colorPalette) := by
  refine ⟨fun r nodes h n hmem => ?_, by decide, by decide, by decide⟩
  have key : ∀ (l : List Node) (i : Nat) (n : Node),
      n ∈ assignColorsFrom r i l → ∃ j, n.color = colorPalette.get? (r j) := by
    intro l
    induction l with
    | nil => intro i n hn; exact absurd hn (List.not_mem_nil n)
    | cons node rest ih =>
      intro i n hn
      rw [assignColorsFrom, List.mem_cons] at hn
      rcases hn with rfl | hn
      · exact ⟨i, rfl⟩
      · exact ih (i + 1) n hn
  obtain ⟨j, hj⟩ := key nodes 0 n hmem
  cases hg : colorPalette.get? (r j) with
  | none =>
    rw [List.get?_eq_none] at hg
    exact absurd (h j) (not_lt.mpr hg)
  | some c =>
    exact ⟨c, List.get?_mem hg, by rw [hj, hg]⟩

/-- Witness for C8's amended claim: with in-range random draws, the
assigned color of a concrete node is a palette member. -/
theorem c8_palette_colors_witness :
    ∃ c ∈ colorPalette,
      ({ id := 1, name := "a", category := "component",
         color := some "#4a90e2" : Node }).color = some c :=
  c8_palette_colors.1 (fun _ => 0)
    [{ id := 1, name := "a", category := "component" }]
    (fun _ => by norm_num [colorPalette])
    { id := 1, name := "a", category := "component", color := some "#4a90e2" }
    (by decide)

end Wt
